import Mathlib

/-!
Verification of the aiogoogle client orchestrator (`aiogoogle/client.py`) and
the abstract session contract (`aiogoogle/sessions/abc.py`).

The orchestrator code is embedded shallowly: each dispatch entry point becomes
a pure Lean function that returns the list of observable effects (network
exchanges, authorizations, session creation, session send) together with the
updated orchestrator state and the responses, or a Python-style error.
Collaborator components that live outside the embedded files (the OAuth2
manager's `is_expired` or `refresh` behavior, the API-key manager's
`authorize`, the transport session's `send`) are modelled as function-valued
fields, so every theorem about the orchestrator's control flow holds for any
behavior of those collaborators.
-/

namespace Aiogoogle

/-- Request value object (`aiogoogle/models.py`, used opaquely by the client):
verb, resolved URL and headers. The orchestrator never inspects its fields;
they exist so that distinct requests are distinguishable values. -/
structure Request where
  method : String
  url : String
  headers : List (String × String)
  deriving DecidableEq, Repr

/-- Response value object (status code and decoded content), produced by the
session once per request. -/
structure Response where
  status_code : Nat
  content : String
  deriving DecidableEq, Repr

/-- OAuth2 user credentials value object (`aiogoogle/auth/creds.py`, used
opaquely by the client): access token, optional refresh token, expiry. -/
structure UserCreds where
  access_token : String
  refresh_token : Option String
  expires_at : Nat
  deriving DecidableEq, Repr

/-- OAuth2 client credentials value object, passed through to the refresh
exchange and otherwise uninterpreted by the orchestrator. -/
structure ClientCreds where
  client_id : String
  client_secret : String
  deriving DecidableEq, Repr

/-- Python errors raised by the embedded code: `TypeError` for missing
credentials in `as_user`/`as_api_key` (the spec calls this
CredentialsMissingError), `ValueError` for an unresolvable API name in
`discover` (the spec calls this ValidationError), `RuntimeError` for a
non-coroutine session method in `AbstractSession.__new__` (the spec calls
this InterfaceContractError). -/
inductive PyError where
  | typeError (msg : String)
  | valueError (msg : String)
  | runtimeError (msg : String)
  deriving DecidableEq, Repr

/-- Transport session handle: an identifier plus its `send` behavior on a
batch of requests. `send` is an arbitrary function because the concrete
session implementation is an external collaborator. -/
structure Session where
  id : Nat
  send : List Request → List Response

/-- Behavior of `Oauth2Manager` as seen from the client: expiry check,
refresh exchange (success path) and pure request authorization. The manager
implementation lives outside the embedded files, so it is kept abstract. -/
structure Oauth2Manager where
  is_expired : UserCreds → Bool
  refresh : UserCreds → Option ClientCreds → UserCreds
  authorize : Request → UserCreds → Request

/-- Behavior of `ApiKeyManager.authorize` as seen from the client: inject a
static key into a request. Kept abstract for the same reason. -/
structure ApiKeyManager where
  authorize : Request → String → Request

/-- Observable effects of one orchestrator call, in program order:
`refreshCall` is the token-refresh network exchange, `authorizeUser` /
`authorizeKey` are the per-request authorization steps, `sessionCreate` is
the lazy creation of the transport session by `_ensure_session_set`,
`sessionSend` hands the (possibly authorized) batch to the session, and
`listApiCall` / `getRestCall` are the two bootstrap discovery-service
exchanges made by `discover` (`getRestCall` records the `validate` flag the
bootstrap request was constructed with). -/
inductive Effect where
  | refreshCall (uc : UserCreds)
  | authorizeUser (r : Request) (uc : UserCreds)
  | authorizeKey (r : Request) (key : String)
  | sessionCreate (sid : Nat)
  | sessionSend (reqs : List Request)
  | listApiCall (name : String)
  | getRestCall (api : String) (version : String) (validate : Bool)
  deriving DecidableEq, Repr

/-- The `Aiogoogle` orchestrator state (`Aiogoogle.__init__`): session
factory, lazily created session, the three stored credentials, and the two
auth managers (their behaviors). -/
structure Client where
  session_factory : Unit → Session
  active_session : Option Session
  api_key : Option String
  user_creds : Option UserCreds
  client_creds : Option ClientCreds
  oauth2 : Oauth2Manager
  api_key_manager : ApiKeyManager

/-- `Aiogoogle._ensure_session_set`: if `active_session` is `None`, create
one via `session_factory` and store it; otherwise leave the state untouched.
Returns the new state, the session the caller will use, and the creation
effect (empty when the session already existed). -/
def ensure_session_set (g : Client) : Client × Session × List Effect :=
  match g.active_session with
  | none =>
      let s := g.session_factory ()
      ({ g with active_session := some s }, s, [Effect.sessionCreate s.id])
  | some s => (g, s, [])

/-- The resolution `user_creds = user_creds or self.user_creds` at the top of
`Aiogoogle.as_user`: the explicit override when present, else the stored
default. -/
def resolve_user_creds (override stored : Option UserCreds) : Option UserCreds :=
  match override with
  | some uc => some uc
  | none => stored

/-- `Aiogoogle.as_user`: resolve effective credentials (raising `TypeError`
when none), refresh them when expired — writing the refreshed credentials
back into `self.user_creds` exactly when `self.user_creds is not None` —
authorize every request with the effective credentials, then send the
authorized batch through the lazily created session. -/
def as_user (g : Client) (requests : List Request) (user_creds : Option UserCreds) :
    List Effect × Except PyError (Client × List Response) :=
  match resolve_user_creds user_creds g.user_creds with
  | none => ([], Except.error (PyError.typeError "No user credentials were found"))
  | some uc =>
      let expired := g.oauth2.is_expired uc
      let uc2 := if expired then g.oauth2.refresh uc g.client_creds else uc
      let g1 := if expired && g.user_creds.isSome then { g with user_creds := some uc2 } else g
      let refreshTrace := if expired then [Effect.refreshCall uc] else ([] : List Effect)
      let authorized := requests.map (fun r => g.oauth2.authorize r uc2)
      let authTrace := requests.map (fun r => Effect.authorizeUser r uc2)
      let es := ensure_session_set g1
      (refreshTrace ++ authTrace ++ es.2.2 ++ [Effect.sessionSend authorized],
       Except.ok (es.1, (es.2.1).send authorized))

/-- `Aiogoogle.as_api_key`: raise `TypeError` when `self.api_key` is `None`,
otherwise authorize every request with `self.api_key` and send the batch.
The `api_key` parameter is accepted but — exactly as in the source — never
read. -/
def as_api_key (g : Client) (requests : List Request) (api_key : Option String) :
    List Effect × Except PyError (Client × List Response) :=
  match g.api_key with
  | none => ([], Except.error (PyError.typeError "No API key found"))
  | some key =>
      let authorized := requests.map (fun r => g.api_key_manager.authorize r key)
      let authTrace := requests.map (fun r => Effect.authorizeKey r key)
      let es := ensure_session_set g
      (authTrace ++ es.2.2 ++ [Effect.sessionSend authorized],
       Except.ok (es.1, (es.2.1).send authorized))

/-- `Aiogoogle.as_anon`: send the caller's batch through the lazily created
session with no authorization step at all. -/
def as_anon (g : Client) (requests : List Request) :
    List Effect × Client × List Response :=
  let es := ensure_session_set g
  (es.2.2 ++ [Effect.sessionSend requests], es.1, (es.2.1).send requests)

/-- True exactly on the refresh-exchange effect. -/
def is_refresh_call : Effect → Bool
  | Effect.refreshCall _ => true
  | _ => false

/-- True exactly on the two authorization effects. -/
def is_authorization : Effect → Bool
  | Effect.authorizeUser _ _ => true
  | Effect.authorizeKey _ _ => true
  | _ => false

/-- True exactly on a `getRestCall` effect. -/
def is_getRest_call : Effect → Bool
  | Effect.getRestCall _ _ _ => true
  | _ => false

/-- The `validate` flag carried by a `getRestCall` effect (`false` on every
other effect). -/
def getRest_validate_flag : Effect → Bool
  | Effect.getRestCall _ _ b => b
  | _ => false

/-- The session a dispatch through state `g` will use: the existing
`active_session` when set, else the one `session_factory` produces. -/
def effective_session (g : Client) : Session :=
  (ensure_session_set g).2.1

/-- Stored default credentials after a call, when the call succeeded. -/
def stored_creds_after (r : List Effect × Except PyError (Client × List Response)) :
    Option (Option UserCreds) :=
  match r.2 with
  | Except.ok p => some p.1.user_creds
  | Except.error _ => none

/-- Responses returned by a call, when the call succeeded. -/
def responses_of (r : List Effect × Except PyError (Client × List Response)) :
    Option (List Response) :=
  match r.2 with
  | Except.ok p => some p.2
  | Except.error _ => none

/-- One entry of the preferred-version directory returned by
`list_api(name, preferred=True)`. -/
structure DirectoryItem where
  name : String
  version : String
  deriving DecidableEq, Repr

/-- The directory response body: its `items` list. -/
structure DirectoryList where
  items : List DirectoryItem
  deriving DecidableEq, Repr

/-- `GoogleAPI(discovery_document, validate)` as constructed at the end of
`Aiogoogle.discover`: the fetched document together with the validation flag
the caller chose. -/
structure GoogleAPI where
  discovery_document : String
  validate : Bool
  deriving DecidableEq, Repr

/-- Network environment of `Aiogoogle.discover`: the directory the
`list_api` bootstrap call returns for a name, and the discovery document the
`getRest` bootstrap call returns for a name/version pair. -/
structure DiscoveryEnv where
  list_result : String → DirectoryList
  getRest_doc : String → String → String

/-- `Aiogoogle.discover`: when `api_version` is `None`, look the name up via
`list_api(name, preferred=True)` and raise `ValueError("Invalid API name")`
on an empty `items` list, else take the first item's name and version; then
fetch the document via a `getRest` request constructed with
`validate=False`, and return `GoogleAPI(document, validate)`. -/
def discover (env : DiscoveryEnv) (api_name : String) (api_version : Option String)
    (validate : Bool) : List Effect × Except PyError GoogleAPI :=
  match api_version with
  | none =>
      match (env.list_result api_name).items with
      | [] => ([Effect.listApiCall api_name],
               Except.error (PyError.valueError "Invalid API name"))
      | item :: _ =>
          ([Effect.listApiCall api_name,
            Effect.getRestCall item.name item.version false],
           Except.ok { discovery_document := env.getRest_doc item.name item.version,
                       validate := validate })
  | some v =>
      ([Effect.getRestCall api_name v false],
       Except.ok { discovery_document := env.getRest_doc api_name v,
                   validate := validate })

/-- The coroutine members of `AbstractSession` found by
`inspect.getmembers(AbstractSession, predicate=inspect.iscoroutinefunction)`:
only `send` is declared `async def` there. -/
def parent_abstract_coros : List String := ["send"]

/-- A subclass of `AbstractSession`, reduced to what `__new__` inspects: for
each overridden method name, whether the override is a coroutine function. -/
structure SessionSubclass where
  methods : List (String × Bool)
  deriving DecidableEq, Repr

/-- `getattr(cls, name)` followed by `inspect.iscoroutinefunction`: an
override decides it; a method that is not overridden resolves to
`AbstractSession`'s own member, which is a coroutine function. -/
def getattr_is_coro (cls : SessionSubclass) (name : String) : Bool :=
  match cls.methods.lookup name with
  | some b => b
  | none => true

/-- `AbstractSession.__new__`: for every coroutine member of the abstract
class, require the subclass's method to be a coroutine function, raising
`RuntimeError` at the first violation; otherwise construction proceeds
normally. -/
def abstract_session_new (cls : SessionSubclass) : Except PyError SessionSubclass :=
  match parent_abstract_coros.find? (fun n => !(getattr_is_coro cls n)) with
  | some n => Except.error (PyError.runtimeError (n ++ " must be a coroutine"))
  | none => Except.ok cls

/-! Concrete fixtures used by counterexamples and witnesses. -/

/-- A sample GET request. -/
def reqA : Request := { method := "GET", url := "https://example.com/a", headers := [] }

/-- A second, distinct sample request. -/
def reqB : Request := { method := "POST", url := "https://example.com/b", headers := [] }

/-- A deterministic canned transport: one response per request, echoing the
request URL, in input order. -/
def cannedResponse (r : Request) : Response := { status_code := 200, content := r.url }

/-- A concrete session whose `send` answers each request in order. -/
def sessA : Session := { id := 7, send := fun l => l.map cannedResponse }

/-- A concrete OAuth2 manager behavior: tokens expire at time 100, a refresh
appends a mark to the access token and extends the expiry, authorization
adds a bearer header. -/
def oauthA : Oauth2Manager :=
  { is_expired := fun uc => decide (uc.expires_at ≤ 100)
    refresh := fun uc _ =>
      { uc with access_token := uc.access_token ++ "+", expires_at := 1000 }
    authorize := fun r uc =>
      { r with headers := ("Authorization", "Bearer " ++ uc.access_token) :: r.headers } }

/-- A concrete API-key manager behavior: append the key to the URL. -/
def keyMgrA : ApiKeyManager :=
  { authorize := fun r k => { r with url := r.url ++ "?key=" ++ k } }

/-- Expired credentials stored as the orchestrator's default. -/
def ucStored : UserCreds :=
  { access_token := "stored", refresh_token := some "r1", expires_at := 50 }

/-- Expired credentials passed by a caller as an explicit override. -/
def ucOverride : UserCreds :=
  { access_token := "override", refresh_token := some "r2", expires_at := 40 }

/-- A fully populated orchestrator: no session yet, a default API key, a
stored default `user_creds`, and the concrete manager behaviors above. -/
def gA : Client :=
  { session_factory := fun _ => sessA
    active_session := none
    api_key := some "K"
    user_creds := some ucStored
    client_creds := none
    oauth2 := oauthA
    api_key_manager := keyMgrA }

/-- `gA` with no stored API key. -/
def gNoKey : Client := { gA with api_key := none }

/-- `gA` with no stored default user credentials. -/
def gNoCreds : Client := { gA with user_creds := none }

/-- A discovery environment: `list_api` knows one preferred youtube entry
and nothing else; `getRest` returns a recognizable document string. -/
def envA : DiscoveryEnv :=
  { list_result := fun name =>
      if name = "youtube" then { items := [{ name := "youtube", version := "v3" }] }
      else { items := [] }
    getRest_doc := fun api version => "doc:" ++ api ++ "/" ++ version }

/-! Helper lemmas shared by the claim theorems. -/

/-- `_ensure_session_set` only touches `active_session`: every credential
field survives it. -/
theorem ensure_session_set_fields (g : Client) :
    (ensure_session_set g).1.user_creds = g.user_creds
    ∧ (ensure_session_set g).1.api_key = g.api_key
    ∧ (ensure_session_set g).1.client_creds = g.client_creds := by
  cases h : g.active_session <;> simp [ensure_session_set, h]

/-- Updating `user_creds` does not change which session a dispatch uses. -/
theorem effective_session_user_creds_update (g : Client) (x : Option UserCreds) :
    effective_session { g with user_creds := x } = effective_session g := by
  cases h : g.active_session <;>
    simp [effective_session, ensure_session_set, h]

/-- `_ensure_session_set` emits no refresh, authorization or getRest effect. -/
theorem ensure_session_set_trace_clean (g : Client) :
    (ensure_session_set g).2.2.countP is_refresh_call = 0
    ∧ (ensure_session_set g).2.2.countP is_authorization = 0 := by
  cases h : g.active_session <;>
    simp [ensure_session_set, h, is_refresh_call, is_authorization]

/-- Updating `user_creds` changes neither the session-creation trace nor the
resulting session of `_ensure_session_set`. -/
theorem ensure_session_set_user_creds_update (g : Client) (x : Option UserCreds) :
    (ensure_session_set { g with user_creds := x }).2.2 = (ensure_session_set g).2.2
    ∧ (ensure_session_set { g with user_creds := x }).2.1 = (ensure_session_set g).2.1 := by
  cases h : g.active_session <;> simp [ensure_session_set, h]

/-- Claim C4: calling `as_user` with no explicit override while the
orchestrator holds no stored default fails with the credentials-missing
error (`TypeError("No user credentials were found")`) and an empty effect
trace — no refresh, no authorization, no session creation, no send. -/
theorem as_user_missing_creds_fails_before_network (g : Client)
    (requests : List Request) (h : g.user_creds = none) :
    as_user g requests none
      = ([], Except.error (PyError.typeError "No user credentials were found")) := by
  simp [as_user, resolve_user_creds, h]

/-- Witness for C4 at a concrete orchestrator with no stored credentials. -/
theorem as_user_missing_creds_fails_before_network_witness :
    as_user gNoCreds [reqA] none
      = ([], Except.error (PyError.typeError "No user credentials were found")) :=
  as_user_missing_creds_fails_before_network gNoCreds [reqA] rfl

/-- Claim C5: the session is created lazily and at most once. When
`active_session` is unset, `_ensure_session_set` stores the session produced
by `session_factory`; when it is already set, the state is returned
untouched with that same session; and running `_ensure_session_set` again on
the resulting state observes the same session and creates nothing. -/
theorem ensure_session_set_lazy_idempotent (g : Client) :
    (g.active_session = none →
       ensure_session_set g
         = ({ g with active_session := some (g.session_factory ()) },
            g.session_factory (),
            [Effect.sessionCreate (g.session_factory ()).id]))
    ∧ (∀ s, g.active_session = some s → ensure_session_set g = (g, s, []))
    ∧ ensure_session_set (ensure_session_set g).1
        = ((ensure_session_set g).1, (ensure_session_set g).2.1, []) := by
  refine ⟨?_, ?_, ?_⟩
  · intro h; simp [ensure_session_set, h]
  · intro s h; simp [ensure_session_set, h]
  · cases h : g.active_session <;> simp [ensure_session_set, h]

/-- Witness for C5: first use creates the session from the factory, a second
use observes it unchanged, and on a state that already has a session the
call is the identity. -/
theorem ensure_session_set_lazy_idempotent_witness :
    ensure_session_set gA
      = ({ gA with active_session := some (gA.session_factory ()) },
         gA.session_factory (), [Effect.sessionCreate (gA.session_factory ()).id])
    ∧ ensure_session_set (ensure_session_set gA).1
        = ((ensure_session_set gA).1, (ensure_session_set gA).2.1, [])
    ∧ ensure_session_set { gA with active_session := some sessA }
        = ({ gA with active_session := some sessA }, sessA, []) :=
  ⟨(ensure_session_set_lazy_idempotent gA).1 rfl,
   (ensure_session_set_lazy_idempotent gA).2.2,
   (ensure_session_set_lazy_idempotent { gA with active_session := some sessA }).2.1
     sessA rfl⟩

/-- Claim C6: `as_anon` dispatches the caller's batch unmodified: its trace
is the (possible) session creation followed by a `sessionSend` of exactly
the input request list, it contains no authorization and no refresh effect,
and the responses are the session's answer to that untouched list. -/
theorem as_anon_dispatches_unmodified (g : Client) (requests : List Request) :
    (as_anon g requests).1
        = (ensure_session_set g).2.2 ++ [Effect.sessionSend requests]
    ∧ (as_anon g requests).1.countP is_authorization = 0
    ∧ (as_anon g requests).1.countP is_refresh_call = 0
    ∧ (as_anon g requests).2.2 = (effective_session g).send requests := by
  refine ⟨rfl, ?_, ?_, rfl⟩ <;>
    cases h : g.active_session <;>
      simp [as_anon, ensure_session_set, h, is_authorization, is_refresh_call]

/-- Claim C2 (code evaluated at the failing inputs): `as_api_key` ignores
its `api_key` parameter. With no stored default key, a call that passes an
explicit override still fails with `TypeError("No API key found")` and an
empty trace; with a stored default key `"K"`, a call passing the override
`"SUPPLIED"` authorizes with `"K"`. -/
theorem as_api_key_ignores_override :
    as_api_key gNoKey [reqA] (some "SUPPLIED")
        = ([], Except.error (PyError.typeError "No API key found"))
    ∧ (as_api_key gA [reqA] (some "SUPPLIED")).1.head?
        = some (Effect.authorizeKey reqA "K") := by
  exact ⟨rfl, rfl⟩

/-- Claim C8: `AbstractSession.__new__` raises
`RuntimeError("send must be a coroutine")` when the subclass's `send` is not
a coroutine function, and lets construction proceed when every coroutine
member of the abstract class is implemented as a coroutine function. -/
theorem abstract_session_new_coroutine_contract (cls : SessionSubclass) :
    (getattr_is_coro cls "send" = false →
       abstract_session_new cls
         = Except.error (PyError.runtimeError "send must be a coroutine"))
    ∧ ((∀ n ∈ parent_abstract_coros, getattr_is_coro cls n = true) →
       abstract_session_new cls = Except.ok cls) := by
  constructor
  · intro h
    simp [abstract_session_new, parent_abstract_coros, List.find?, h]
  · intro h
    have hs := h "send" (by simp [parent_abstract_coros])
    simp [abstract_session_new, parent_abstract_coros, List.find?, hs]

/-- A subclass whose `send` override is not a coroutine function. -/
def badSubclass : SessionSubclass := { methods := [("send", false)] }

/-- A subclass whose overrides are all coroutine functions. -/
def goodSubclass : SessionSubclass := { methods := [("send", true), ("close", true)] }

/-- Witness for C8 on the two concrete subclasses. -/
theorem abstract_session_new_coroutine_contract_witness :
    abstract_session_new badSubclass
      = Except.error (PyError.runtimeError "send must be a coroutine")
    ∧ abstract_session_new goodSubclass = Except.ok goodSubclass :=
  ⟨(abstract_session_new_coroutine_contract badSubclass).1 rfl,
   (abstract_session_new_coroutine_contract goodSubclass).2 (by decide)⟩

/-- Claim C9: `discover` with `api_version=None` whose preferred-version
lookup returns an empty item list fails with
`ValueError("Invalid API name")`, and its trace is exactly the one
`list_api` exchange — in particular it contains no `getRest` fetch. -/
theorem discover_unresolvable_name_fails (env : DiscoveryEnv) (api_name : String)
    (validate : Bool) (hempty : (env.list_result api_name).items = []) :
    discover env api_name none validate
        = ([Effect.listApiCall api_name],
           Except.error (PyError.valueError "Invalid API name"))
    ∧ (discover env api_name none validate).1.countP is_getRest_call = 0 := by
  constructor
  · simp [discover, hempty]
  · simp [discover, hempty, is_getRest_call]

/-- Witness for C9: `envA` has no directory entry for `"maps"`. -/
theorem discover_unresolvable_name_fails_witness :
    discover envA "maps" none true
        = ([Effect.listApiCall "maps"],
           Except.error (PyError.valueError "Invalid API name"))
    ∧ (discover envA "maps" none true).1.countP is_getRest_call = 0 :=
  discover_unresolvable_name_fails envA "maps" true (by decide)

/-- Claim C1 (counterexample): the claim says an explicit override never
mutates the orchestrator's stored default. But on `gA` — whose stored
default is `ucStored` — a call with the explicit expired override
`ucOverride` succeeds and leaves the refreshed override (not `ucStored`) in
the stored default slot. -/
theorem as_user_override_mutates_default_counterexample :
    gA.user_creds = some ucStored
    ∧ stored_creds_after (as_user gA [reqA] (some ucOverride))
        = some (some { access_token := "override+", refresh_token := some "r2",
                       expires_at := 1000 })
    ∧ ({ access_token := "override+", refresh_token := some "r2",
         expires_at := 1000 } : UserCreds) ≠ ucStored := by
  refine ⟨rfl, by decide, by decide⟩

/-- Claim C1 (amended): whenever `as_user` succeeds, the refreshed
credentials are written into the stored default slot exactly when the
effective credentials were expired and the stored default slot was non-None
at call time — regardless of whether the caller passed an explicit override;
otherwise the slot is unchanged. -/
theorem as_user_writeback_iff_default_present (g : Client) (requests : List Request)
    (override : Option UserCreds) (uc : UserCreds)
    (hres : resolve_user_creds override g.user_creds = some uc) :
    stored_creds_after (as_user g requests override)
      = some (if g.oauth2.is_expired uc && g.user_creds.isSome
              then some (g.oauth2.refresh uc g.client_creds)
              else g.user_creds) := by
  unfold as_user stored_creds_after
  rw [hres]
  cases hexp : g.oauth2.is_expired uc <;>
    cases hstored : g.user_creds.isSome <;>
      simp [hexp, hstored, (ensure_session_set_fields _).1]

/-- Witness for the amended C1: on `gA` with the explicit override
`ucOverride` the write-back condition evaluates and holds. -/
theorem as_user_writeback_iff_default_present_witness :
    stored_creds_after (as_user gA [reqA] (some ucOverride))
      = some (if gA.oauth2.is_expired ucOverride && gA.user_creds.isSome
              then some (gA.oauth2.refresh ucOverride gA.client_creds)
              else gA.user_creds) :=
  as_user_writeback_iff_default_present gA [reqA] (some ucOverride) ucOverride rfl

/-- Claim C3: when the effective credentials' expiry check is true, `as_user`
performs exactly one refresh exchange and it is the very first effect of the
call — before any authorization and before anything is handed to the
session; when the expiry check is false, no refresh is performed. -/
theorem as_user_single_refresh_before_authorization (g : Client)
    (requests : List Request) (override : Option UserCreds) (uc : UserCreds)
    (hres : resolve_user_creds override g.user_creds = some uc) :
    (g.oauth2.is_expired uc = true →
       (as_user g requests override).1.countP is_refresh_call = 1
       ∧ (as_user g requests override).1.head? = some (Effect.refreshCall uc))
    ∧ (g.oauth2.is_expired uc = false →
       (as_user g requests override).1.countP is_refresh_call = 0) := by
  unfold as_user
  rw [hres]
  constructor
  · intro hexp
    constructor
    · simp [hexp, List.countP_append, List.countP_map, Function.comp,
            is_refresh_call, (ensure_session_set_trace_clean _).1]
    · simp [hexp]
  · intro hexp
    simp [hexp, List.countP_append, List.countP_map, Function.comp,
          is_refresh_call, (ensure_session_set_trace_clean _).1]

/-- Witness for C3: on `gA` (expired stored default, no override) a two
request batch triggers exactly one refresh, first in the trace. -/
theorem as_user_single_refresh_before_authorization_witness :
    (as_user gA [reqA, reqB] none).1.countP is_refresh_call = 1
    ∧ (as_user gA [reqA, reqB] none).1.head? = some (Effect.refreshCall ucStored) :=
  (as_user_single_refresh_before_authorization gA [reqA, reqB] none ucStored rfl).1 rfl

/-- Claim C7: provided the session answers a batch in the order of its input
requests (its `send` is a map of one response function over the batch),
every dispatch entry point returns one response per caller request, in the
caller's order: anonymous dispatch maps the response function directly, and
the two authorized dispatches map it over the per-request authorization. -/
theorem dispatch_preserves_batch_order (g : Client) (requests : List Request)
    (f : Request → Response)
    (hsend : ∀ l, (effective_session g).send l = l.map f) :
    (as_anon g requests).2.2 = requests.map f
    ∧ (∀ override uc, resolve_user_creds override g.user_creds = some uc →
        responses_of (as_user g requests override)
          = some (requests.map (fun r => f (g.oauth2.authorize r
              (if g.oauth2.is_expired uc
               then g.oauth2.refresh uc g.client_creds else uc)))))
    ∧ (∀ override key, g.api_key = some key →
        responses_of (as_api_key g requests override)
          = some (requests.map (fun r =>
              f (g.api_key_manager.authorize r key)))) := by
  have hsend2 : ∀ l, ((ensure_session_set g).2.1).send l = l.map f := fun l => hsend l
  refine ⟨?_, ?_, ?_⟩
  · show (effective_session g).send requests = requests.map f
    exact hsend requests
  · intro override uc hres
    have hupd : ∀ x : Option UserCreds,
        (ensure_session_set { g with user_creds := x }).2.1
          = (ensure_session_set g).2.1 :=
      fun x => (ensure_session_set_user_creds_update g x).2
    unfold as_user responses_of
    rw [hres]
    cases hexp : g.oauth2.is_expired uc <;>
      cases hstored : g.user_creds.isSome <;>
        simp [hexp, hstored, hupd, hsend2, List.map_map, Function.comp]
  · intro override key hkey
    unfold as_api_key responses_of
    rw [hkey]
    simp [hsend2, List.map_map, Function.comp]

/-- Witness for C7 on `gA` with the canned in-order session: all three entry
points return the batch's responses in caller order. -/
theorem dispatch_preserves_batch_order_witness :
    (as_anon gA [reqA, reqB]).2.2 = [reqA, reqB].map cannedResponse
    ∧ responses_of (as_user gA [reqA, reqB] none)
        = some ([reqA, reqB].map (fun r => cannedResponse (gA.oauth2.authorize r
            (if gA.oauth2.is_expired ucStored
             then gA.oauth2.refresh ucStored gA.client_creds else ucStored))))
    ∧ responses_of (as_api_key gA [reqA, reqB] none)
        = some ([reqA, reqB].map (fun r =>
            cannedResponse (gA.api_key_manager.authorize r "K"))) :=
  ⟨(dispatch_preserves_batch_order gA [reqA, reqB] cannedResponse (fun _ => rfl)).1,
   (dispatch_preserves_batch_order gA [reqA, reqB] cannedResponse
      (fun _ => rfl)).2.1 none ucStored rfl,
   (dispatch_preserves_batch_order gA [reqA, reqB] cannedResponse
      (fun _ => rfl)).2.2 none "K" rfl⟩

/-- Claim C10: every `getRest` bootstrap request `discover` constructs
carries `validate=False`, whatever the caller passed, and the caller's
`validate` flag shows up only in the returned `GoogleAPI`. -/
theorem discover_bootstrap_validate_disabled (env : DiscoveryEnv)
    (api_name : String) (api_version : Option String) (validate : Bool) :
    ((discover env api_name api_version validate).1.all
        (fun e => !getRest_validate_flag e) = true)
    ∧ (∀ api, (discover env api_name api_version validate).2 = Except.ok api →
        api.validate = validate) := by
  cases api_version with
  | none =>
      cases h : (env.list_result api_name).items with
      | nil =>
          constructor
          · simp [discover, h, getRest_validate_flag]
          · intro api hap
            simp [discover, h] at hap
      | cons item rest =>
          constructor
          · simp [discover, h, getRest_validate_flag]
          · intro api hap
            simp [discover, h] at hap
            rw [← hap]
  | some v =>
      constructor
      · simp [discover, getRest_validate_flag]
      · intro api hap
        simp [discover] at hap
        rw [← hap]

/-- Witness for C10: on `envA` with `validate=true` and a resolved version,
the trace's only `getRestCall` still carries `false` and the returned
`GoogleAPI` carries the caller's `true`. -/
theorem discover_bootstrap_validate_disabled_witness :
    ((discover envA "youtube" (some "v3") true).1.all
        (fun e => !getRest_validate_flag e) = true)
    ∧ ({ discovery_document := "doc:youtube/v3", validate := true }
        : GoogleAPI).validate = true :=
  ⟨(discover_bootstrap_validate_disabled envA "youtube" (some "v3") true).1,
   (discover_bootstrap_validate_disabled envA "youtube" (some "v3") true).2
     { discovery_document := "doc:youtube/v3", validate := true } rfl⟩

end Aiogoogle
